import Mathlib

/-!
Shallow embedding of `src/conf_mode/lldp.py` (VyOS LLDP configuration
translator): config-tree accessor, extraction functions (`get_options`,
`get_interface_list`, `get_location_intf`, `get_location`, `get_config`),
the validator `verify`, the two template renderers and the `generate` /
`apply` / `__main__` effect pipeline.

Conventions of the embedding:
* A VyOS configuration snapshot is a tree of named nodes, each carrying an
  optional scalar value.  The Python accessor methods `exists`,
  `return_value`, `list_nodes` become queries on this tree; path strings
  such as `'service lldp interface eth0'` become `List String` paths
  (interface names contain no spaces).
* `set_level` mutates the accessor's scope in Python; the embedding threads
  the `Config` record (tree plus current level) explicitly.
* Python dynamic typing is kept where the script exploits (or trips over)
  it: functions that `return 0` instead of a list/dict are embedded with a
  dedicated `zero` constructor, and `verify` returns `Except PyError Unit`
  where `PyError` distinguishes `ConfigError` from the unhandled
  `TypeError` / `ValueError` / `KeyError` exceptions Python would raise.
* Python string truthiness (`if s:`) is emptiness of the character list;
  `re.match` with a `$`-terminated anchored pattern matches the whole
  string or the whole string minus a single trailing newline (CPython `$`
  semantics); `int(...)` accepts surrounding ASCII whitespace and an
  optional sign followed by ASCII digits (Unicode digits and underscore
  grouping of CPython are not modelled, no claim depends on them).
-/

namespace Lldp

/-- A configuration tree node: an optional scalar value plus an ordered
list of named children (order is the declaration order that
`list_nodes` reports). -/
inductive CTree where
  | node (value : Option String) (children : List (String × CTree))

/-- Descend from a node along a path of child names. -/
def CTree.find (t : CTree) : List String → Option CTree
  | [] => some t
  | n :: rest =>
    match t with
    | .node _ cs =>
      match cs.lookup n with
      | some c => c.find rest
      | none => none

/-- The config accessor of `vyos.config.Config`: the snapshot tree plus the
current scope prefix set by `set_level`. -/
structure Config where
  tree : CTree
  level : List String

def Config.set_level (c : Config) (l : List String) : Config :=
  { c with level := l }

def Config.exists (c : Config) (p : List String) : Bool :=
  (c.tree.find (c.level ++ p)).isSome

def Config.return_value (c : Config) (p : List String) : Option String :=
  match c.tree.find (c.level ++ p) with
  | some (.node v _) => v
  | none => none

def Config.list_nodes (c : Config) (p : List String) : List String :=
  match c.tree.find (c.level ++ p) with
  | some (.node _ cs) => cs.map Prod.fst
  | none => []

/-- The `options` dict built by `get_options`.  `sys_snmp` is an
`Option Bool` because the Python dict only receives the `'sys_snmp'` key
when `snmp` is true; reading the missing key raises `KeyError`. -/
structure Options where
  listen_vlan : Bool
  addr : Option String
  snmp : Bool
  sys_snmp : Option Bool
  cdp : Bool
  edp : Bool
  fdp : Bool
  sonmp : Bool
  description : String
  listen_on : List String
deriving DecidableEq, Repr

/-- One entry of `interface_list`: `{'name': ..., 'disable': ...}`. -/
structure Intf where
  name : String
  disable : Bool
deriving DecidableEq, Repr

/-- One entry of the `civic_based['ca_type']` list:
`{'name': ..., 'ca_val': ...}`.  `ca_val` comes from `return_value` and
may be `None`. -/
structure CAType where
  name : String
  ca_val : Option String
deriving DecidableEq, Repr

/-- The `civic_based` dict when the `civic-based` branch ran; the empty
dict `{}` of the other branches is represented as `none` at the use
site (the script only ever tests the dict via `len(...) > 0`, and a
populated dict always has its two keys). -/
structure CivicBased where
  country_code : Option String
  ca_type : List CAType
deriving DecidableEq, Repr

/-- The `coordinate_based` dict when the `coordinate-based` branch ran
(four keys, each from `return_value`, hence optional); the empty dict of
the other branches is `none` at the use site. -/
structure CoordBased where
  altitude : Option String
  latitude : Option String
  longitude : Option String
  datum : Option String
deriving DecidableEq, Repr

/-- The per-interface location dict built by `get_location_intf` when it
does not take the early `return 0`. -/
structure LocationIntf where
  name : String
  civic_based : Option CivicBased
  elin : Option String
  coordinate_based : Option CoordBased
deriving DecidableEq, Repr

/-- Result of `get_location_intf`: either the Python integer `0`
(early return) or the location dict. -/
inductive LocEntry where
  | zero
  | intf (l : LocationIntf)
deriving DecidableEq, Repr

/-- Result of `get_interface_list`: the Python integer `0` or the list. -/
inductive InterfaceListResult where
  | zero
  | list (l : List Intf)
deriving DecidableEq, Repr

/-- Result of `get_location`: the Python integer `0` or the list of
per-interface entries. -/
inductive GetLocationResult where
  | zero
  | list (l : List LocEntry)
deriving DecidableEq, Repr

/-- The `lldp` dict built by `get_config` when the service subtree
exists.  The `default_config_data` placeholder strings are overwritten
unconditionally before the dict is returned, so they do not appear
here. -/
structure LLDP where
  options : Options
  interface_list : InterfaceListResult
  location : GetLocationResult
deriving DecidableEq, Repr

/-- `get_options(config)`: daemon-wide flags.  Returns the options dict
together with the accessor state left behind (its final `set_level`). -/
def get_options (config : Config) : Options × Config :=
  let config := config.set_level ["service", "lldp"]
  let listen_vlan := config.exists ["listen-vlan"]
  let addr := config.return_value ["management-address"]
  let snmp := config.exists ["snmp", "enable"]
  let (sys_snmp, config) :=
    if snmp then
      let config := config.set_level []
      let s := config.exists ["service", "snmp"]
      (some s, config.set_level ["service", "lldp"])
    else
      (none, config)
  let config := config.set_level ["service", "lldp", "legacy-protocols"]
  let cdp := config.exists ["cdp"]
  let edp := config.exists ["edp"]
  let fdp := config.exists ["fdp"]
  let sonmp := config.exists ["sonmp"]
  ({ listen_vlan := listen_vlan
     addr := addr
     snmp := snmp
     sys_snmp := sys_snmp
     cdp := cdp
     edp := edp
     fdp := fdp
     sonmp := sonmp
     -- start with an unknown version information
     description := "unknown"
     listen_on := [] }, config)

/-- `get_interface_list(config)`.  The guard `len(intfs_names) < 0` is
transcribed as written; on a `Nat` length it is never true, exactly as
`len(...)` is never negative in Python. -/
def get_interface_list (config : Config) : InterfaceListResult × Config :=
  let config := config.set_level ["service", "lldp"]
  let intfs_names := config.list_nodes ["interface"]
  if intfs_names.length < 0 then
    (.zero, config)
  else
    let step := fun (acc : List Intf × Config) (name : String) =>
      let config := acc.2.set_level ["service", "lldp", "interface", name]
      let disable := config.exists ["disable"]
      (acc.1 ++ [{ name := name, disable := disable }], config)
    let fold := intfs_names.foldl step ([], config)
    (.list fold.1, fold.2)

/-- `get_location_intf(config, name)`.  Note the early return: when the
interface's `location` subtree EXISTS the function returns the integer
`0`; only when it is absent does it go on to probe the (then
nonexistent) `location` children. -/
def get_location_intf (config : Config) (name : String) : LocEntry × Config :=
  let path := ["service", "lldp", "interface", name]
  let config := config.set_level path
  if config.exists ["location"] then
    (.zero, config)
  else
    let config := config.set_level (path ++ ["location"])
    if config.exists ["civic-based"] then
      let config := config.set_level (path ++ ["location", "civic-based"])
      let cc := config.return_value ["country-code"]
      let ca_types_names := config.list_nodes ["ca-type"]
      let (ca_type, config) :=
        if ca_types_names ≠ [] then
          let step := fun (acc : List CAType × Config) (ca_types_name : String) =>
            let config := acc.2.set_level
              (path ++ ["location", "civic-based", "ca-type", ca_types_name])
            let ca_val := config.return_value ["ca-value"]
            (acc.1 ++ [{ name := ca_types_name, ca_val := ca_val }], config)
          ca_types_names.foldl step ([], config)
        else
          ([], config)
      (.intf { name := name
               civic_based := some { country_code := cc, ca_type := ca_type }
               elin := none
               coordinate_based := none }, config)
    else if config.exists ["elin"] then
      let elin := config.return_value ["elin"]
      (.intf { name := name
               civic_based := none
               elin := elin
               coordinate_based := none }, config)
    else if config.exists ["coordinate-based"] then
      let config := config.set_level (path ++ ["location", "coordinate-based"])
      let altitude := config.return_value ["altitude"]
      let latitude := config.return_value ["latitude"]
      let longitude := config.return_value ["longitude"]
      let datum := config.return_value ["datum"]
      (.intf { name := name
               civic_based := none
               elin := none
               coordinate_based := some { altitude := altitude
                                          latitude := latitude
                                          longitude := longitude
                                          datum := datum } }, config)
    else
      (.intf { name := name
               civic_based := none
               elin := none
               coordinate_based := none }, config)

/-- `get_location(config)`: early `return 0` on the never-true length
guard and on a `disable` child of `service lldp`; otherwise one entry
per declared interface, in declaration order. -/
def get_location (config : Config) : GetLocationResult × Config :=
  let config := config.set_level ["service", "lldp"]
  let intfs_names := config.list_nodes ["interface"]
  if intfs_names.length < 0 then
    (.zero, config)
  else if config.exists ["disable"] then
    (.zero, config)
  else
    let step := fun (acc : List LocEntry × Config) (name : String) =>
      let (intf, config) := get_location_intf acc.2 name
      (acc.1 ++ [intf], config)
    let fold := intfs_names.foldl step ([], config)
    (.list fold.1, fold.2)

/-- `get_config()`: `None` when the `service lldp` subtree is absent,
otherwise the assembled model.  The fresh accessor starts at the root
level, matching `Config()` in the script. -/
def get_config (tree : CTree) : Option LLDP :=
  let conf : Config := { tree := tree, level := [] }
  if ¬ conf.exists ["service", "lldp"] then
    none
  else
    let (options, conf) := get_options conf
    let (interface_list, conf) := get_interface_list conf
    let (location, _) := get_location conf
    some { options := options, interface_list := interface_list, location := location }

/-! ### Python semantics helpers -/

/-- Python truthiness of a string that may be `None`: `None` and the
empty string are falsy. -/
def optTruthy : Option String → Bool
  | none => false
  | some s => !s.data.isEmpty

/-- The exceptions the script can raise.  `configError` is VyOS's
`ConfigError`, caught by the `__main__` handler; the others are Python
builtins that propagate unhandled. -/
inductive PyError where
  | configError (msg : String)
  | typeError (msg : String)
  | valueError (msg : String)
  | keyError (key : String)
  | indexError (msg : String)
  | fileNotFoundError (path : String)
deriving DecidableEq, Repr

/-- ASCII whitespace, as stripped by CPython `int(str)`. -/
def isPyWs (c : Char) : Bool :=
  c = ' ' || c = '\t' || c = '\n' || c = '\x0d' || c = '\x0b' || c = '\x0c'

/-- Numeric value of a list of ASCII digits. -/
def digitsVal (cs : List Char) : Nat :=
  cs.foldl (fun acc c => 10 * acc + (c.toNat - 48)) 0

/-- CPython `int(s)` restricted to ASCII: strip surrounding whitespace,
optional single sign, one or more ASCII digits; anything else raises
`ValueError` (`none` here). -/
def pyInt (s : String) : Option Int :=
  let cs := ((s.data.dropWhile isPyWs).reverse.dropWhile isPyWs).reverse
  match cs with
  | '+' :: ds =>
    if ds ≠ [] ∧ ds.all Char.isDigit then some (digitsVal ds) else none
  | '-' :: ds =>
    if ds ≠ [] ∧ ds.all Char.isDigit then some (-(digitsVal ds : Int)) else none
  | ds =>
    if ds ≠ [] ∧ ds.all Char.isDigit then some (digitsVal ds) else none

/-- CPython `re.match` for a pattern of the shape `^core$`: the core must
consume the whole string, or the whole string minus a single trailing
newline (`$` also matches just before a final newline). -/
def pyMatchDollar (core : List Char → Bool) (s : String) : Bool :=
  core s.data || (s.data.getLast? == some '\n' && core s.data.dropLast)

/-- Core of `^[a-zA-Z]{2}$` (the country-code pattern). -/
def twoAlphaCore (cs : List Char) : Bool :=
  match cs with
  | [a, b] => a.isAlpha && b.isAlpha
  | _ => false

/-- Core of `^(\d+)(\.\d+)?L$` where `L` is a hemisphere character
class ( `[nNsS]` for latitude, `[eEwW]` for longitude).  The greedy
`\d+` never needs to backtrack here because neither `.` nor a
hemisphere letter is a digit, so taking the maximal digit runs is
equivalent to the regex. -/
def coordCore (hemi : List Char) (cs : List Char) : Bool :=
  let d1 := cs.takeWhile Char.isDigit
  let rest1 := cs.dropWhile Char.isDigit
  if d1.isEmpty then
    false
  else
    match rest1 with
    | [c] => hemi.contains c
    | '.' :: rest2 =>
      let d2 := rest2.takeWhile Char.isDigit
      let rest3 := rest2.dropWhile Char.isDigit
      if d2.isEmpty then
        false
      else
        match rest3 with
        | [c] => hemi.contains c
        | _ => false
    | _ => false

/-- The latitude character class `[nNsS]`. -/
def latHemi : List Char := ['n', 'N', 's', 'S']

/-- The longitude character class `[eEwW]`. -/
def lonHemi : List Char := ['e', 'E', 'w', 'W']

/-- Core of `^[-+0-9\.]+$` (the altitude pattern). -/
def altitudeCore (cs : List Char) : Bool :=
  !cs.isEmpty && cs.all (fun c => c = '-' || c = '+' || c.isDigit || c = '.')

/-- Core of `^(WGS84|NAD83|MLLW)$` (the datum pattern). -/
def datumCore (cs : List Char) : Bool :=
  cs = "WGS84".data || cs = "NAD83".data || cs = "MLLW".data

/-- Core of `^[0-9]{10,25}$` (the ELIN pattern). -/
def elinCore (cs : List Char) : Bool :=
  10 ≤ cs.length && cs.length ≤ 25 && cs.all Char.isDigit

/-! ### Error messages raised by `verify`, after `.format` substitution -/

def msgOneLocation (n : String) : String :=
  "Can only configure 1 location type for interface " ++ n

def msgCountryConfigure (n : String) : String :=
  "Invalid location for interface " ++ n ++ ":\nmust configure the country code"

def msgCountryTwoChars (n : String) : String :=
  "Invalid location for interface " ++ n ++ ":\ncountry-code must be 2 characters"

def msgCaAtLeastOne (n : String) : String :=
  "Invalid location for interface " ++ n ++ ":\nmust define at least 1 ca-type"

def msgCaRange (n : String) : String :=
  "Invalid location for interface " ++ n ++ ":\nca-type must between 0-128"

def msgCaValue (n t : String) : String :=
  "Invalid location for interface " ++ n ++
    ":\nmust configure the ca-value for ca-type " ++ t

def msgDefineLongitude (n : String) : String :=
  "Must define longitude for interface " ++ n

def msgDefineLatitude (n : String) : String :=
  "Must define latitude for interface " ++ n

def msgLatitude (n : String) : String :=
  "Invalid location for interface " ++ n ++
    ":\nlatitude should be a number followed by S or N"

def msgLongitude (n : String) : String :=
  "Invalid location for interface " ++ n ++
    ":\nlongitude should be a number followed by E or W"

def msgAltitude (n : String) : String :=
  "Invalid location for interface " ++ n ++
    ":\naltitude should be a positive or negative number"

/-- The datum message reproduces the source's broken quoting: the outer
double-quoted Python literal swallows two single quotes and, through a
backslash line continuation inside the literal, the 38 spaces of
indentation of the continuation line. -/
def msgDatum (n : String) : String :=
  "Invalid location for interface " ++ n ++
    ":\n'                                       'datum should be WGS84, NAD83, or MLLW"

def msgElin (n : String) : String :=
  "Invalid location for interface " ++ n ++
    ":\nELIN number must be between 10-25 numbers"

def msgSnmp : String := "SNMP must be configured to enable LLDP SNMP"

/-- Message of the `ValueError` raised by `int()` on a non-numeric
string (CPython formats the offending string with `repr`; for the plain
strings of this model that is the string in single quotes). -/
def msgIntValueError (s : String) : String :=
  "invalid literal for int() with base 10: '" ++ s ++ "'"

/-! ### verify -/

/-- The `for ca_type in location['civic_based']['ca_type']` loop body of
`verify`: `int()` parse (may raise `ValueError`), range check against
`range(0, 129)`, then truthiness of `ca_val`. -/
def checkCaTypes (locName : String) : List CAType → Except PyError Unit
  | [] => .ok ()
  | ca :: rest =>
    match pyInt ca.name with
    | none => .error (.valueError (msgIntValueError ca.name))
    | some n =>
      if ¬ (0 ≤ n ∧ n < 129) then
        .error (.configError (msgCaRange locName))
      else if ¬ optTruthy ca.ca_val then
        .error (.configError (msgCaValue locName ca.name))
      else
        checkCaTypes locName rest

/-- The body of the `for location in lldp['location']` loop of `verify`
for a single entry.  An entry that is the integer `0` fails at the first
subscript `location['civic_based']` with a `TypeError`. -/
def verifyEntry : LocEntry → Except PyError Unit
  | .zero => .error (.typeError "'int' object is not subscriptable")
  | .intf l =>
    match l.civic_based with
    | some civic =>
      -- check civic-based (len(location['civic_based']) > 0)
      if l.coordinate_based.isSome || optTruthy l.elin then
        .error (.configError (msgOneLocation l.name))
      -- check country-code
      else if ¬ optTruthy civic.country_code then
        .error (.configError (msgCountryConfigure l.name))
      else if ¬ pyMatchDollar twoAlphaCore ((civic.country_code).getD "") then
        .error (.configError (msgCountryTwoChars l.name))
      -- check ca-type: the guard is transcribed as written; a list
      -- length is never < 0, in Python as here
      else if civic.ca_type.length < 0 then
        .error (.configError (msgCaAtLeastOne l.name))
      else
        checkCaTypes l.name civic.ca_type
    | none =>
      match l.coordinate_based with
      | some coord =>
        -- check coordinate-based (elif len(location['coordinate_based']) > 0)
        if ¬ optTruthy coord.longitude then
          .error (.configError (msgDefineLongitude l.name))
        else if ¬ optTruthy coord.latitude then
          .error (.configError (msgDefineLatitude l.name))
        else if ¬ pyMatchDollar (coordCore latHemi) ((coord.latitude).getD "") then
          .error (.configError (msgLatitude l.name))
        else if ¬ pyMatchDollar (coordCore lonHemi) ((coord.longitude).getD "") then
          .error (.configError (msgLongitude l.name))
        -- check altitude and datum if exist
        else if optTruthy coord.altitude ∧
            ¬ pyMatchDollar altitudeCore ((coord.altitude).getD "") then
          .error (.configError (msgAltitude l.name))
        else if optTruthy coord.datum ∧
            ¬ pyMatchDollar datumCore ((coord.datum).getD "") then
          .error (.configError (msgDatum l.name))
        else
          .ok ()
      | none =>
        -- check elin (elif location['elin']:)
        if optTruthy l.elin then
          if ¬ pyMatchDollar elinCore ((l.elin).getD "") then
            .error (.configError (msgElin l.name))
          else
            .ok ()
        else
          .ok ()

/-- Sequential first-failure check of a list of location entries. -/
def checkEntries : List LocEntry → Except PyError Unit
  | [] => .ok ()
  | e :: rest =>
    match verifyEntry e with
    | .error err => .error err
    | .ok () => checkEntries rest

/-- The `for location in lldp['location']` loop: iterating the integer
`0` raises a `TypeError`. -/
def verifyLocations : GetLocationResult → Except PyError Unit
  | .zero => .error (.typeError "'int' object is not iterable")
  | .list entries => checkEntries entries

/-- `verify(lldp)`: early return on `None`, then the location loop, then
the SNMP cross-check.  Reading the absent `'sys_snmp'` key raises
`KeyError`. -/
def verify : Option LLDP → Except PyError Unit
  | none => .ok ()
  | some lldp =>
    match verifyLocations lldp.location with
    | .error err => .error err
    | .ok () =>
      -- check options
      if lldp.options.snmp then
        match lldp.options.sys_snmp with
        | none => .error (.keyError "sys_snmp")
        | some sys =>
          if ¬ sys then .error (.configError msgSnmp) else .ok ()
      else
        .ok ()

/-! ### generate / apply / main -/

/-- Path of generated file 1 (`config_file = "/etc/default/lldpd"`). -/
def config_file : String := "/etc/default/lldpd"

/-- Path of generated file 2 (`vyos_config_file`). -/
def vyos_config_file : String := "/etc/lldpd.d/01-vyos.conf"

/-- The filesystem/service state the script can affect: the contents of
the two generated files (`none` = file absent) and the shell commands
issued through `os.system`, in order. -/
structure SysState where
  file1 : Option String
  file2 : Option String
  commands : List String
deriving DecidableEq, Repr

/-- Rendering of `lldp_tmpl` by `jinja2.Template(...).render(options)`.
The template literal starts with a newline, and Jinja strips exactly one
trailing newline of the template source (default
`keep_trailing_newline=False`), so of the two final newlines in the
literal one survives.  Each `{%if%}` fragment appears exactly when its
flag is truthy (for `addr`, a non-`None` non-empty string). -/
def render_lldp_tmpl (o : Options) : String :=
  "\n### Autogenerated by lldp.py ###\nDAEMON_ARGS=\"-M4"
  ++ (if o.snmp then " -x" else "")
  ++ (if optTruthy o.addr then " -m " ++ o.addr.getD "" else "")
  ++ (if o.cdp then " -c" else "")
  ++ (if o.edp then " -e" else "")
  ++ (if o.fdp then " -f" else "")
  ++ (if o.sonmp then " -s" else "")
  ++ "\"\n"

/-- Rendering of `vyos_tmpl`.  With Jinja defaults (`trim_blocks=False`)
the newline terminating each `{%...%}` block line is emitted with the
surrounding text, and one trailing newline of the source is stripped;
the interface-pattern block renders only when `listen_on` is a
non-empty list. -/
def render_vyos_tmpl (o : Options) : String :=
  "\n### Autogenerated by lldp.py ###\n\nconfigure system platform VyOS\nconfigure system description \"VyOS "
  ++ o.description ++ "\"\n"
  ++ (if o.listen_on.isEmpty then ""
      else "\nconfigure system interface pattern \""
           ++ String.intercalate "," o.listen_on ++ "\"\n")
  ++ "\n"

/-- Python `str.split()` with no argument: split on runs of whitespace,
discarding empty fields. -/
def pySplitWs (s : String) : List String :=
  ((s.data.splitOnP isPyWs).map fun cs => String.mk cs).filter fun t => t ≠ ""

/-- `generate(lldp)`.  The version file `/opt/vyatta/etc/version` is an
external input, passed as `version`; its second whitespace token becomes
`options['description']` (a shorter file raises `IndexError`).  The
`listen_on` list is extended per interface (`'!'` prefix when disabled),
then both templates are rendered and written, overwriting both files.
All failure points (`IndexError`, iterating a non-list
`interface_list`) precede the file writes.  The mutated `lldp` dict is
returned alongside the new state, mirroring in-place mutation. -/
def generateEff (version : String) :
    Option LLDP → SysState → Except PyError (Option LLDP × SysState)
  | none, st => .ok (none, st)
  | some lldp, st =>
    match (pySplitWs version).get? 1 with
    | none => .error (.indexError "list index out of range")
    | some desc =>
      let options := { lldp.options with description := desc }
      match lldp.interface_list with
      | .zero => .error (.typeError "'int' object is not iterable")
      | .list intfs =>
        let listen := intfs.map fun intf => (if intf.disable then "!" else "") ++ intf.name
        let options := { options with listen_on := options.listen_on ++ listen }
        let st := { st with file1 := some (render_lldp_tmpl options) }
        let st := { st with file2 := some (render_vyos_tmpl options) }
        .ok (some { lldp with options := options }, st)

/-- `apply(lldp)`: restart the daemon when the model dict is truthy
(it always has three keys, so any non-`None` model is truthy); on
`None`, stop the daemon and `os.unlink` file 1 (`FileNotFoundError`
when it is already absent). -/
def applyEff : Option LLDP → SysState → Except PyError SysState
  | some _, st =>
    .ok { st with commands := st.commands ++ ["sudo systemctl restart lldpd.service"] }
  | none, st =>
    let st := { st with commands := st.commands ++ ["sudo systemctl stop lldpd.service"] }
    match st.file1 with
    | some _ => .ok { st with file1 := none }
    | none => .error (.fileNotFoundError config_file)

/-- Outcome of the `__main__` block: normal completion, `ConfigError`
caught (message printed, `sys.exit(1)`), or an unhandled exception.  In
each case the system state at the moment of termination is recorded. -/
inductive MainResult where
  | exitOk (st : SysState)
  | printedAndExit1 (msg : String) (st : SysState)
  | unhandled (e : PyError) (st : SysState)
deriving DecidableEq, Repr

/-- The `__main__` block: `get_config` → `verify` → `generate` → `apply`
inside `try`, with only `ConfigError` caught (printing the message and
exiting with status 1). -/
def mainRun (tree : CTree) (version : String) (st : SysState) : MainResult :=
  let c := get_config tree
  match verify c with
  | .error (.configError m) => .printedAndExit1 m st
  | .error e => .unhandled e st
  | .ok () =>
    match generateEff version c st with
    | .error (.configError m) => .printedAndExit1 m st
    | .error e => .unhandled e st
    | .ok (c2, st2) =>
      match applyEff c2 st2 with
      | .error (.configError m) => .printedAndExit1 m st2
      | .error e => .unhandled e st2
      | .ok st3 => .exitOk st3

/-! ### Concrete models and configuration snapshots used by the theorems -/

/-- Options dict as `get_options` builds it for a config with no
`listen-vlan`, no `management-address` and no legacy protocols: only
the two SNMP fields vary. -/
def mkOptions (snmp : Bool) (sys_snmp : Option Bool) : Options :=
  { listen_vlan := false
    addr := none
    snmp := snmp
    sys_snmp := sys_snmp
    cdp := false
    edp := false
    fdp := false
    sonmp := false
    description := "unknown"
    listen_on := [] }

/-- A service model whose single interface `eth0` carries an elin
location record with value `s` (civic and coordinate dicts empty). -/
def elinModel (s : String) : LLDP :=
  { options := mkOptions false none
    interface_list := .list []
    location := .list [.intf { name := "eth0"
                               civic_based := none
                               elin := some s
                               coordinate_based := none }] }

/-- A service model whose single interface `eth0` carries a
coordinate-based location record with the given latitude and longitude
(altitude and datum absent, civic dict empty, no elin). -/
def coordModel (lat lon : Option String) : LLDP :=
  { options := mkOptions false none
    interface_list := .list []
    location := .list [.intf { name := "eth0"
                               civic_based := none
                               elin := none
                               coordinate_based := some { altitude := none
                                                          latitude := lat
                                                          longitude := lon
                                                          datum := none } }] }

/-- A service model whose single interface `eth0` carries a civic-based
location record with country code `US` and one ca-type entry whose
identifier is `s` and whose value is `"v"`. -/
def civicModel (s : String) : LLDP :=
  { options := mkOptions false none
    interface_list := .list []
    location := .list [.intf { name := "eth0"
                               civic_based := some { country_code := some "US"
                                                     ca_type := [{ name := s, ca_val := some "v" }] }
                               elin := none
                               coordinate_based := none }] }

/-- A service model whose single interface `eth0` carries a civic-based
location record with country code `US` and an empty ca-type list. -/
def civicEmptyCaModel : LLDP :=
  { options := mkOptions false none
    interface_list := .list []
    location := .list [.intf { name := "eth0"
                               civic_based := some { country_code := some "US"
                                                     ca_type := [] }
                               elin := none
                               coordinate_based := none }] }

/-- Config snapshot: `service lldp` with interface `eth0` carrying a
`location elin` subtree and interface `eth1` carrying no `location`
subtree at all. -/
def treeLocPresentAbsent : CTree :=
  .node none [("service", .node none [("lldp", .node none [
    ("interface", .node none [
      ("eth0", .node none [("location", .node none [("elin", .node (some "0123456789") [])])]),
      ("eth1", .node none [])])])])]

/-- Config snapshot: `service lldp` with a `disable` child and nothing
else. -/
def treeDisable : CTree :=
  .node none [("service", .node none [("lldp", .node none [("disable", .node none [])])])]

/-- Config snapshot: `service lldp snmp enable` present but no
system-wide `service snmp` node. -/
def treeSnmpNoSystem : CTree :=
  .node none [("service", .node none [("lldp", .node none [
    ("snmp", .node none [("enable", .node none [])])])])]

/-- The service model of claim C3: one enabled interface `eth0`, one
disabled interface `eth1`, SNMP disabled, all legacy flags false. -/
def modelC3 : LLDP :=
  { options := mkOptions false none
    interface_list := .list [{ name := "eth0", disable := false },
                             { name := "eth1", disable := true }]
    location := .list [] }

/-- File 1 content produced by `generate` on `modelC3` (extracted from
the post-state; `none` if generation failed or wrote nothing). -/
def genC3file1 : Option String :=
  match generateEff "Version:  1.2.0 built on 20190302" (some modelC3)
      { file1 := none, file2 := none, commands := [] } with
  | .ok (_, st) => st.file1
  | .error _ => none

/-- File 2 content produced by `generate` on `modelC3`. -/
def genC3file2 : Option String :=
  match generateEff "Version:  1.2.0 built on 20190302" (some modelC3)
      { file1 := none, file2 := none, commands := [] } with
  | .ok (_, st) => st.file2
  | .error _ => none

/-- Splitting a list of characters at each newline (every separator
produces a field, as in Python `str.split('\n')`). -/
def splitLines : List Char → List (List Char)
  | [] => [[]]
  | c :: rest =>
    match splitLines rest with
    | [] => [[]]
    | l :: ls => if c = '\n' then [] :: l :: ls else (c :: l) :: ls

/-- Splitting a file's content into its lines (Python
`content.split('\n')`). -/
def pyLines (s : String) : List String := (splitLines s.data).map fun cs => String.mk cs

end Lldp

namespace Lldp

/-! ### Claim theorems -/

/-- C1: the claim states that an interface with no location subtree is
skipped by the extractor and an interface with a location subtree gets a
record.  The code does the opposite on both sides: `get_location_intf`
returns the integer `0` exactly when the `location` subtree EXISTS
(an inverted check — the rest of the script, which subscripts each
entry, shows the intended polarity), and `get_location` appends whatever
is returned.  On `treeLocPresentAbsent`, interface `eth0` (location
present) contributes the bare `0` instead of a record of its data, and
interface `eth1` (location absent) contributes an empty record instead
of being skipped. -/
theorem c1_get_location_inverts_presence :
    (get_location { tree := treeLocPresentAbsent, level := [] }).1 =
      .list [.zero,
             .intf { name := "eth1"
                     civic_based := none
                     elin := none
                     coordinate_based := none }] := rfl

/-- C2: the claim states that a civic record with an empty ca-type list
is rejected with 'must define at least 1 ca-type'.  The code's guard is
`len(...) < 0`, which is never true, so the empty-list model passes
`verify` — the error message in the source documents the intent that the
guard cannot implement. -/
theorem c2_empty_ca_type_list_accepted :
    civicEmptyCaModel.location =
      .list [.intf { name := "eth0"
                     civic_based := some { country_code := some "US", ca_type := [] }
                     elin := none
                     coordinate_based := none }] ∧
    verify (some civicEmptyCaModel) = .ok () :=
  ⟨rfl, rfl⟩

/-- C3 counterexample: file 1's content is not exactly the single line
`DAEMON_ARGS="-M4"` (with or without a final newline) — the template
also emits a leading blank line and a generated-by comment line. -/
theorem c3_file1_not_bare_daemon_args :
    genC3file1 = some "\n### Autogenerated by lldp.py ###\nDAEMON_ARGS=\"-M4\"\n" ∧
    "\n### Autogenerated by lldp.py ###\nDAEMON_ARGS=\"-M4\"\n" ≠ "DAEMON_ARGS=\"-M4\"" ∧
    "\n### Autogenerated by lldp.py ###\nDAEMON_ARGS=\"-M4\"\n" ≠ "DAEMON_ARGS=\"-M4\"\n" :=
  ⟨rfl, by decide, by decide⟩

/-- C3 amended: for the model with enabled `eth0` and disabled `eth1`,
no SNMP and no legacy flags, `generate` writes file 1 consisting of a
blank line, the generated-by comment and a single `DAEMON_ARGS` line
that is exactly `DAEMON_ARGS="-M4"`; file 2's interface-pattern line is
exactly `configure system interface pattern "eth0,!eth1"` (disabled
interfaces prefixed with `!`, comma-joined, in declaration order). -/
theorem c3_generated_files :
    pyLines (genC3file1.getD "") =
      ["", "### Autogenerated by lldp.py ###", "DAEMON_ARGS=\"-M4\"", ""] ∧
    genC3file2 = some "\n### Autogenerated by lldp.py ###\n\nconfigure system platform VyOS\nconfigure system description \"VyOS 1.2.0\"\n\nconfigure system interface pattern \"eth0,!eth1\"\n\n" ∧
    "configure system interface pattern \"eth0,!eth1\"" ∈ pyLines (genC3file2.getD "") :=
  ⟨by decide, rfl, by decide⟩

/-- C10: with the LLDP service subtree present and carrying a `disable`
child, `get_location` returns the integer `0` instead of a list, and
`verify` on the resulting (non-`None`) model raises the unhandled
`TypeError` of iterating a non-iterable, not a `ConfigError`. -/
theorem c10_disable_zero_and_type_error :
    (get_location { tree := treeDisable, level := [] }).1 = .zero ∧
    verify (get_config treeDisable) =
      .error (.typeError "'int' object is not iterable") :=
  ⟨rfl, rfl⟩

/-- C4: whenever `verify` raises a `ConfigError` on the extracted
configuration, the top-level run prints that message and exits with
status 1, and the system state is exactly the initial one: no file is
written and no service command is issued, so previously generated files
are untouched (`generate` and `apply` are never reached). -/
theorem c4_config_error_exits_without_effects (tree : CTree) (version : String)
    (st : SysState) (msg : String)
    (h : verify (get_config tree) = .error (.configError msg)) :
    mainRun tree version st = .printedAndExit1 msg st := by
  simp only [mainRun]
  rw [h]

/-- Witness for C4 at the snapshot `treeSnmpNoSystem`, whose extracted
model fails the SNMP cross-check: the run exits printing the SNMP
message and the pre-existing files and command log are unchanged. -/
theorem c4_witness :
    mainRun treeSnmpNoSystem "Version:  1.2.0"
        { file1 := some "old1", file2 := some "old2", commands := [] } =
      .printedAndExit1 msgSnmp
        { file1 := some "old1", file2 := some "old2", commands := [] } :=
  c4_config_error_exits_without_effects treeSnmpNoSystem "Version:  1.2.0"
    { file1 := some "old1", file2 := some "old2", commands := [] } msgSnmp rfl

/-- C5: on any model whose location entries all pass, `verify` raises
the `ConfigError` 'SNMP must be configured to enable LLDP SNMP' exactly
when the options have `snmp` enabled and the system-wide SNMP flag
recorded as disabled; and with both enabled, validation passes.  (When
`snmp` is enabled but the `sys_snmp` key was never stored, the code
raises a `KeyError`, not this `ConfigError` — that key is always stored
by `get_options` when `snmp` is true.) -/
theorem c5_snmp_cross_check (lldp : LLDP)
    (h : verifyLocations lldp.location = .ok ()) :
    (verify (some lldp) = .error (.configError msgSnmp) ↔
      lldp.options.snmp = true ∧ lldp.options.sys_snmp = some false) ∧
    (lldp.options.snmp = true → lldp.options.sys_snmp = some true →
      verify (some lldp) = .ok ()) := by
  have base : verify (some lldp) =
      (match verifyLocations lldp.location with
       | .error err => (.error err : Except PyError Unit)
       | .ok () =>
         if lldp.options.snmp then
           match lldp.options.sys_snmp with
           | none => .error (.keyError "sys_snmp")
           | some sys =>
             if ¬ sys then .error (.configError msgSnmp) else .ok ()
         else
           .ok ()) := rfl
  rw [base, h]
  cases hs : lldp.options.snmp with
  | false => simp
  | true =>
    cases hsys : lldp.options.sys_snmp with
    | none => simp
    | some sys => cases sys <;> simp

/-- Witness for C5: a model with empty location list, `snmp` enabled and
system SNMP recorded disabled fails with the SNMP message. -/
theorem c5_witness :
    verify (some { options := mkOptions true (some false)
                   interface_list := .list []
                   location := .list [] }) = .error (.configError msgSnmp) :=
  ((c5_snmp_cross_check { options := mkOptions true (some false)
                          interface_list := .list []
                          location := .list [] } rfl).1).mpr ⟨rfl, rfl⟩

/-- C9: on the `None` model (LLDP service subtree absent), `verify`
returns immediately, `generate` changes nothing (no file written, no
model field set — the model is returned as `None`), and `apply` issues
the stop command and deletes file 1 while leaving file 2 and the rest of
the state untouched. -/
theorem c9_null_model_teardown (version : String) (st stA : SysState) (c : String)
    (hc : stA.file1 = some c) :
    verify none = .ok () ∧
    generateEff version none st = .ok (none, st) ∧
    applyEff none stA =
      .ok { stA with
              file1 := none
              commands := stA.commands ++ ["sudo systemctl stop lldpd.service"] } := by
  refine ⟨rfl, rfl, ?_⟩
  cases stA with
  | mk f1 f2 cmds =>
    cases hc
    rfl

/-- Witness for C9 at concrete states: file 1 present beforehand,
file 2 content preserved afterwards. -/
theorem c9_witness :
    verify none = .ok () ∧
    generateEff "Version:  1.2.0" none
        { file1 := none, file2 := none, commands := [] } =
      .ok (none, { file1 := none, file2 := none, commands := [] }) ∧
    applyEff none { file1 := some "x", file2 := some "y", commands := [] } =
      .ok { file1 := none, file2 := some "y"
            commands := ["sudo systemctl stop lldpd.service"] } :=
  c9_null_model_teardown "Version:  1.2.0"
    { file1 := none, file2 := none, commands := [] }
    { file1 := some "x", file2 := some "y", commands := [] } "x" rfl

/-- On the one-entry civic model, `verify` reduces to the ca-type loop
on the single entry: the preceding exclusivity, country-code and
(never-firing) count checks all pass, and with SNMP off nothing follows
the location loop. -/
theorem verify_civicModel_eq (s : String) :
    verify (some (civicModel s)) =
      checkCaTypes "eth0" [{ name := s, ca_val := some "v" }] := by
  have base : verify (some (civicModel s)) =
      (match (match checkCaTypes "eth0" [{ name := s, ca_val := some "v" }] with
              | .error err => (.error err : Except PyError Unit)
              | .ok _ => (.ok () : Except PyError Unit)) with
       | .error err => (.error err : Except PyError Unit)
       | .ok _ => (.ok () : Except PyError Unit)) := rfl
  rw [base]
  cases checkCaTypes "eth0" [{ name := s, ca_val := some "v" }] <;> rfl

/-- C6: on a civic record with one ca-type entry, an identifier that
does not parse as an integer makes `verify` raise the unhandled
`ValueError` of `int()` (not a `ConfigError`); an identifier parsing to
a value outside `[0, 128]` raises the `ConfigError`
'ca-type must between 0-128'; and an identifier parsing into `[0, 128]`
(boundaries included) passes the range check and, with a non-empty
ca-value, validation succeeds. -/
theorem c6_ca_type_identifier (s : String) :
    (pyInt s = none →
      verify (some (civicModel s)) = .error (.valueError (msgIntValueError s))) ∧
    (∀ n : Int, pyInt s = some n → n < 0 ∨ 128 < n →
      verify (some (civicModel s)) = .error (.configError (msgCaRange "eth0"))) ∧
    (∀ n : Int, pyInt s = some n → 0 ≤ n ∧ n ≤ 128 →
      verify (some (civicModel s)) = .ok ()) := by
  have hA : checkCaTypes "eth0" [{ name := s, ca_val := some "v" }] =
      (match pyInt s with
       | none => (.error (.valueError (msgIntValueError s)) : Except PyError Unit)
       | some n =>
         if ¬ (0 ≤ n ∧ n < 129) then .error (.configError (msgCaRange "eth0"))
         else .ok ()) := rfl
  refine ⟨?_, ?_, ?_⟩
  · intro h
    rw [verify_civicModel_eq, hA, h]
  · intro n hn hr
    rw [verify_civicModel_eq, hA, hn]
    have hx : ¬ (0 ≤ n ∧ n < 129) := by omega
    show (if ¬ (0 ≤ n ∧ n < 129) then
            (.error (.configError (msgCaRange "eth0")) : Except PyError Unit)
          else .ok ()) = _
    rw [if_pos hx]
  · intro n hn hr
    rw [verify_civicModel_eq, hA, hn]
    have hx : (0 ≤ n ∧ n < 129) := by omega
    show (if ¬ (0 ≤ n ∧ n < 129) then
            (.error (.configError (msgCaRange "eth0")) : Except PyError Unit)
          else .ok ()) = _
    rw [if_neg (not_not_intro hx)]

/-- Witness for C6 at the identifiers `"x"` (unparsable), `"129"` and
`"-1"` (out of range), and the boundary values `"0"` and `"128"`. -/
theorem c6_witness :
    verify (some (civicModel "x")) = .error (.valueError (msgIntValueError "x")) ∧
    verify (some (civicModel "129")) = .error (.configError (msgCaRange "eth0")) ∧
    verify (some (civicModel "-1")) = .error (.configError (msgCaRange "eth0")) ∧
    verify (some (civicModel "0")) = .ok () ∧
    verify (some (civicModel "128")) = .ok () :=
  ⟨(c6_ca_type_identifier "x").1 rfl,
   (c6_ca_type_identifier "129").2.1 129 rfl (Or.inr (by decide)),
   (c6_ca_type_identifier "-1").2.1 (-1) rfl (Or.inl (by decide)),
   (c6_ca_type_identifier "0").2.2 0 rfl (by decide),
   (c6_ca_type_identifier "128").2.2 128 rfl (by decide)⟩

/-- Collapsing the error propagation of the location loop and the
(passing, SNMP-off) option check around a single entry's outcome. -/
theorem except_propagate (r : Except PyError Unit) :
    (match (match r with
            | .error err => (.error err : Except PyError Unit)
            | .ok _ => (.ok () : Except PyError Unit)) with
     | .error err => (.error err : Except PyError Unit)
     | .ok _ => (.ok () : Except PyError Unit)) = r := by
  cases r with
  | error e => rfl
  | ok u => cases u; rfl

/-- On the one-entry elin model, `verify` reduces to the elin branch of
the entry check. -/
theorem verify_elinModel_eq (s : String) :
    verify (some (elinModel s)) =
      (if optTruthy (some s) then
         (if ¬ pyMatchDollar elinCore s then
            (.error (.configError (msgElin "eth0")) : Except PyError Unit)
          else .ok ())
       else .ok ()) := by
  have base : verify (some (elinModel s)) =
      (match (match (if optTruthy (some s) then
                       (if ¬ pyMatchDollar elinCore s then
                          (.error (.configError (msgElin "eth0")) : Except PyError Unit)
                        else .ok ())
                     else .ok ()) with
              | .error err => (.error err : Except PyError Unit)
              | .ok _ => (.ok () : Except PyError Unit)) with
       | .error err => (.error err : Except PyError Unit)
       | .ok _ => (.ok () : Except PyError Unit)) := rfl
  rw [base, except_propagate]

/-- Deleting at most one trailing newline, the normalization under which
the anchored CPython regexes of `verify` compare strings. -/
def stripTrailingNl (cs : List Char) : List Char :=
  if cs.getLast? = some '\n' then cs.dropLast else cs

/-- A character list ending in a newline is never all digits, so the
ELIN core match fails on it. -/
theorem elinCore_newline_false (cs : List Char) (h : '\n' ∈ cs) :
    elinCore cs = false := by
  unfold elinCore
  cases hall : cs.all Char.isDigit with
  | false => simp [hall]
  | true =>
    have := List.all_eq_true.mp hall '\n' h
    simp at this

/-- The `$`-anchored ELIN match succeeds exactly when the value minus an
optional single trailing newline satisfies the core pattern. -/
theorem pyMatchDollar_elin_strip (s : String) :
    pyMatchDollar elinCore s = elinCore (stripTrailingNl s.data) := by
  unfold pyMatchDollar stripTrailingNl
  by_cases hl : s.data.getLast? = some '\n'
  · rw [if_pos hl, elinCore_newline_false s.data (List.mem_of_getLast?_eq_some hl)]
    simp [hl]
  · rw [if_neg hl]
    have hb : (s.data.getLast? == some '\n') = false := by
      simp [hl]
    simp [hb]

/-- A guarded check of the shape used throughout `verify` passes exactly
when the underlying match succeeds. -/
theorem ite_not_error_eq_ok (b : Bool) (e : PyError) :
    ((if ¬ b then (.error e : Except PyError Unit) else .ok ()) = .ok ()) ↔ b = true := by
  cases b <;> simp

/-- Unfolding the ELIN core pattern `^[0-9]{10,25}$` into its length and
digit conditions. -/
theorem elinCore_iff (cs : List Char) :
    elinCore cs = true ↔
      (10 ≤ cs.length ∧ cs.length ≤ 25 ∧ ∀ c ∈ cs, c.isDigit = true) := by
  simp [elinCore, List.all_eq_true, and_assoc]

/-- C8 counterexample: the claim's 'accepts exactly when the value is a
string of 10 to 25 decimal digits' fails on the code: the value
`"0123456789\n"` is not a digit string, yet `verify` accepts it,
because CPython's `$` also matches just before a single trailing
newline. -/
theorem c8_trailing_newline_accepted :
    verify (some (elinModel "0123456789\n")) = .ok () ∧
    ("0123456789\n").data.all Char.isDigit = false :=
  ⟨rfl, by decide⟩

/-- C8 amended: on an elin record with a non-empty value, `verify`
accepts exactly when the value, after dropping at most one trailing
newline, is a string of 10 to 25 decimal digits (so a 9-digit string is
rejected and 10- and 25-digit strings are accepted, while a 26-digit
string is rejected, as the witness instantiates). -/
theorem c8_elin_accepts_iff (s : String) (hs : s ≠ "") :
    verify (some (elinModel s)) = .ok () ↔
      (10 ≤ (stripTrailingNl s.data).length ∧
       (stripTrailingNl s.data).length ≤ 25 ∧
       ∀ c ∈ stripTrailingNl s.data, c.isDigit = true) := by
  have hd : s.data ≠ [] := fun h => hs (String.ext (h.trans rfl))
  have htr : optTruthy (some s) = true := by
    show (!s.data.isEmpty) = true
    rw [List.isEmpty_eq_false.mpr hd]
    rfl
  rw [verify_elinModel_eq, htr, if_pos rfl, ite_not_error_eq_ok,
    pyMatchDollar_elin_strip, elinCore_iff]

/-- Witness for C8 at the four digit-string lengths named by the claim:
9 rejected, 10 accepted, 25 accepted, 26 rejected. -/
theorem c8_witness :
    verify (some (elinModel "1234567890")) = .ok () ∧
    ¬ verify (some (elinModel "123456789")) = .ok () ∧
    verify (some (elinModel "1234567890123456789012345")) = .ok () ∧
    ¬ verify (some (elinModel "12345678901234567890123456")) = .ok () :=
  ⟨(c8_elin_accepts_iff "1234567890" (by decide)).mpr (by decide),
   fun h => absurd ((c8_elin_accepts_iff "123456789" (by decide)).mp h) (by decide),
   (c8_elin_accepts_iff "1234567890123456789012345" (by decide)).mpr (by decide),
   fun h => absurd ((c8_elin_accepts_iff "12345678901234567890123456" (by decide)).mp h)
     (by decide)⟩

/-- Splitting `takeWhile`/`dropWhile` at the boundary between an
all-satisfying prefix and a suffix whose head fails the predicate. -/
theorem takeDropWhile_append {p : Char → Bool} (r : List Char)
    (hr : ∀ d, r.head? = some d → p d = false) :
    ∀ l : List Char, (∀ c ∈ l, p c = true) →
      ((l ++ r).takeWhile p = l ∧ (l ++ r).dropWhile p = r) := by
  intro l
  induction l with
  | nil =>
    intro _
    cases r with
    | nil => exact ⟨rfl, rfl⟩
    | cons d rs =>
      have hd : p d = false := hr d rfl
      simp [List.takeWhile_cons, List.dropWhile_cons, hd]
  | cons a t ih =>
    intro hl
    have ha : p a = true := hl a (by simp)
    obtain ⟨h1, h2⟩ := ih fun c hc => hl c (by simp [hc])
    simp [List.takeWhile_cons, List.dropWhile_cons, ha, h1, h2]

/-- The coordinate core pattern `^(\d+)(\.\d+)?L$` accepts every string
built from a non-empty integer part, an optional non-empty fractional
part, and a terminating character of the hemisphere class. -/
theorem coordCore_accepts (hemi : List Char) (dI dF : List Char) (h : Char)
    (hdI : dI ≠ []) (hdIdig : ∀ c ∈ dI, c.isDigit = true)
    (hdFdig : ∀ c ∈ dF, c.isDigit = true)
    (hh : hemi.contains h = true) (hhd : h.isDigit = false) :
    coordCore hemi (dI ++ (if dF = [] then [] else '.' :: dF) ++ [h]) = true := by
  have hIne : dI.isEmpty = false := List.isEmpty_eq_false.mpr hdI
  by_cases hF : dF = []
  · rw [if_pos hF]
    obtain ⟨hT, hD⟩ := takeDropWhile_append (p := Char.isDigit) [h]
      (fun d hd2 => by simp at hd2; exact hd2 ▸ hhd) dI hdIdig
    simp only [List.append_nil] at *
    simp [coordCore, hT, hD, hIne, hh]
    exact List.mem_of_elem_eq_true hh
  · obtain ⟨f, fs, rfl⟩ := List.exists_cons_of_ne_nil hF
    rw [if_neg hF]
    have hassoc : dI ++ ('.' :: f :: fs) ++ [h] = dI ++ ('.' :: (f :: (fs ++ [h]))) := by
      simp
    rw [hassoc]
    obtain ⟨hT1, hD1⟩ := takeDropWhile_append (p := Char.isDigit)
      ('.' :: (f :: (fs ++ [h])))
      (fun d hd2 => by simp at hd2; exact hd2 ▸ (by decide : ('.').isDigit = false))
      dI hdIdig
    obtain ⟨hT2, hD2⟩ := takeDropWhile_append (p := Char.isDigit) [h]
      (fun d hd2 => by simp at hd2; exact hd2 ▸ hhd) (f :: fs) hdFdig
    simp [coordCore, hT1, hD1, hT2, hD2, hIne, hh]
    refine ⟨hdFdig f (by simp), ?_⟩
    simp only [← List.cons_append]
    rw [hD2]
    simpa using hh

/-- A successful core match makes the `$`-anchored match succeed. -/
theorem pyMatchDollar_of_core {core : List Char → Bool} {s : String}
    (h : core s.data = true) : pyMatchDollar core s = true := by
  unfold pyMatchDollar
  rw [h]
  rfl

/-- On the one-entry coordinate model with both fields present, `verify`
reduces to the longitude/latitude presence checks followed by the two
regex checks (altitude and datum are absent here, so their guarded
checks vanish). -/
theorem verify_coordModel_eq (lat lon : String) :
    verify (some (coordModel (some lat) (some lon))) =
      (if ¬ optTruthy (some lon) then
         (.error (.configError (msgDefineLongitude "eth0")) : Except PyError Unit)
       else if ¬ optTruthy (some lat) then
         .error (.configError (msgDefineLatitude "eth0"))
       else if ¬ pyMatchDollar (coordCore latHemi) lat then
         .error (.configError (msgLatitude "eth0"))
       else if ¬ pyMatchDollar (coordCore lonHemi) lon then
         .error (.configError (msgLongitude "eth0"))
       else .ok ()) := by
  have base : verify (some (coordModel (some lat) (some lon))) =
      (match (match (if ¬ optTruthy (some lon) then
                       (.error (.configError (msgDefineLongitude "eth0")) : Except PyError Unit)
                     else if ¬ optTruthy (some lat) then
                       .error (.configError (msgDefineLatitude "eth0"))
                     else if ¬ pyMatchDollar (coordCore latHemi) lat then
                       .error (.configError (msgLatitude "eth0"))
                     else if ¬ pyMatchDollar (coordCore lonHemi) lon then
                       .error (.configError (msgLongitude "eth0"))
                     else .ok ()) with
              | .error err => (.error err : Except PyError Unit)
              | .ok _ => (.ok () : Except PyError Unit)) with
       | .error err => (.error err : Except PyError Unit)
       | .ok _ => (.ok () : Except PyError Unit)) := rfl
  rw [base, except_propagate]

/-- C7: on a coordinate record, `verify` requires longitude and latitude
to be present and non-empty; it accepts every latitude of the shape
digits, an optional dot-and-digits fractional part, and one trailing
hemisphere letter `N`/`S` in either case, with the symmetric shape ending
in `E`/`W` for the longitude; it rejects a latitude with no hemisphere
letter (`"45.5"`) and one with a wrong letter (`"45.5Z"`), and a
longitude ending in a latitude letter (`"120.1N"`). -/
theorem c7_coordinate_latitude_longitude
    (dI dF dI2 dF2 : List Char) (h g : Char)
    (hdI : dI ≠ []) (hdIdig : ∀ c ∈ dI, c.isDigit = true)
    (hdFdig : ∀ c ∈ dF, c.isDigit = true)
    (hh : h = 'N' ∨ h = 'n' ∨ h = 'S' ∨ h = 's')
    (hdI2 : dI2 ≠ []) (hdI2dig : ∀ c ∈ dI2, c.isDigit = true)
    (hdF2dig : ∀ c ∈ dF2, c.isDigit = true)
    (hg : g = 'E' ∨ g = 'e' ∨ g = 'W' ∨ g = 'w') :
    verify (some (coordModel
        (some (String.mk (dI ++ (if dF = [] then [] else '.' :: dF) ++ [h])))
        (some (String.mk (dI2 ++ (if dF2 = [] then [] else '.' :: dF2) ++ [g])))))
      = .ok () ∧
    verify (some (coordModel none (some "120W"))) =
      .error (.configError (msgDefineLatitude "eth0")) ∧
    verify (some (coordModel (some "45.5N") none)) =
      .error (.configError (msgDefineLongitude "eth0")) ∧
    verify (some (coordModel (some "45.5") (some "120W"))) =
      .error (.configError (msgLatitude "eth0")) ∧
    verify (some (coordModel (some "45.5Z") (some "120W"))) =
      .error (.configError (msgLatitude "eth0")) ∧
    verify (some (coordModel (some "45.5N") (some "120.1N"))) =
      .error (.configError (msgLongitude "eth0")) ∧
    verify (some (coordModel (some "45.5N") (some "120.1E"))) = .ok () := by
  refine ⟨?_, rfl, rfl, rfl, rfl, rfl, rfl⟩
  have hhc : latHemi.contains h = true := by
    rcases hh with rfl | rfl | rfl | rfl <;> decide
  have hhd : h.isDigit = false := by
    rcases hh with rfl | rfl | rfl | rfl <;> decide
  have hgc : lonHemi.contains g = true := by
    rcases hg with rfl | rfl | rfl | rfl <;> decide
  have hgd : g.isDigit = false := by
    rcases hg with rfl | rfl | rfl | rfl <;> decide
  have hLatM : pyMatchDollar (coordCore latHemi)
      (String.mk (dI ++ (if dF = [] then [] else '.' :: dF) ++ [h])) = true :=
    pyMatchDollar_of_core (coordCore_accepts latHemi dI dF h hdI hdIdig hdFdig hhc hhd)
  have hLonM : pyMatchDollar (coordCore lonHemi)
      (String.mk (dI2 ++ (if dF2 = [] then [] else '.' :: dF2) ++ [g])) = true :=
    pyMatchDollar_of_core (coordCore_accepts lonHemi dI2 dF2 g hdI2 hdI2dig hdF2dig hgc hgd)
  have hLatT : optTruthy
      (some (String.mk (dI ++ (if dF = [] then [] else '.' :: dF) ++ [h]))) = true := by
    show (!(dI ++ (if dF = [] then [] else '.' :: dF) ++ [h]).isEmpty) = true
    rw [List.isEmpty_eq_false.mpr (by simp)]
    rfl
  have hLonT : optTruthy
      (some (String.mk (dI2 ++ (if dF2 = [] then [] else '.' :: dF2) ++ [g]))) = true := by
    show (!(dI2 ++ (if dF2 = [] then [] else '.' :: dF2) ++ [g]).isEmpty) = true
    rw [List.isEmpty_eq_false.mpr (by simp)]
    rfl
  rw [verify_coordModel_eq, hLonT, hLatT, hLatM, hLonM]
  rfl

/-- Witness for C7 at latitude `"45.5N"` and longitude `"120.1W"`. -/
theorem c7_witness :
    verify (some (coordModel (some "45.5N") (some "120.1W"))) = .ok () :=
  (c7_coordinate_latitude_longitude ['4', '5'] ['5'] ['1', '2', '0'] ['1'] 'N' 'W'
    (by decide) (by decide) (by decide) (Or.inl rfl)
    (by decide) (by decide) (by decide) (Or.inr (Or.inr (Or.inl rfl)))).1

end Lldp
